import Mathlib

/-!
Shallow embedding of the upload-processing pipeline of the
chemical-equipment-parameter-visualizer repository
(src/backend/core/views.py, src/backend/core/models.py).

Conventions of the embedding:

* Machine floats are modelled by `Option ℚ`: `some q` is a finite value,
  `none` is the IEEE NaN that pandas produces for an empty CSV cell.
* A cell of one of the three numeric CSV columns is a `NumCell`:
  `num q` when pandas parsed the cell as a number, `nan` for an empty
  cell, and `bad s` for non-numeric text (in which case pandas keeps the
  whole column at object dtype and `Series.mean` raises a `TypeError`).
* A cell of the text columns (`Equipment Name`, `Type`) is an
  `Option String`; `none` is an empty cell (NaN).  `pd.read_csv` keeps a
  column that is not fully numeric as strings, and `str` is injective on
  the values of any one such column, so the `str(...)` applied in the
  view's dict comprehension is the identity here.
* The Django ORM tables are insertion-ordered lists inside `DBState`;
  `bulk_create` appends, a delete removes, and reads sort explicitly,
  which is the only way the code ever reads them.
* Exceptions are values of `PyError`; the view's broad
  `except Exception` branch is the `.error` case of each fallible step.
  External I/O that can fail (rendering/writing the PDF report) is an
  explicit `Except PyError Unit` argument to the pipeline.
-/

namespace ChemViz

/-- A cell of a numeric CSV column as produced by `pd.read_csv`. -/
inductive NumCell where
  | num (q : ℚ)
  | nan
  | bad (s : String)
deriving DecidableEq

/-- One data row of the uploaded CSV, restricted to the five columns the
view ever reads (extra columns are ignored by the code). -/
structure DataRow where
  name : Option String
  typeCell : Option String
  flowrate : NumCell
  pressure : NumCell
  temperature : NumCell
deriving DecidableEq

/-- models.Equipment: one persisted row. -/
structure Equipment where
  name : Option String
  equipment_type : Option String
  flowrate : NumCell
  pressure : NumCell
  temperature : NumCell
deriving DecidableEq

/-- models.History: one ledger entry (`uploaded_at` as an abstract clock). -/
structure History where
  uploaded_at : Nat
  original_filename : String
  summary : String
  pdf_path : String
deriving DecidableEq

/-- The persistent state touched by the pipeline: the two ORM tables and
the set of report files written under MEDIA_ROOT/reports. -/
structure DBState where
  equipment : List Equipment
  history : List History
  reports : List String
deriving DecidableEq

/-- The upload as the view sees it after `pd.read_csv`: original filename,
raw header tokens, data rows. -/
structure Upload where
  filename : String
  headers : List String
  rows : List DataRow
deriving DecidableEq

/-- Python `str.strip()` whitespace predicate (ASCII part; the exotic
Unicode space characters never occur in the inputs considered here). -/
def pyIsSpace (c : Char) : Bool :=
  c = ' ' || c = '\t' || c = '\n' || c = '\r' || c = '\x0B' || c = '\x0C'

/-- The byte-order marker U+FEFF. -/
def BOM : Char := '\uFEFF'

/-- Python `s.strip()` on the character list of `s`. -/
def pyStripChars (l : List Char) : List Char :=
  ((l.dropWhile pyIsSpace).reverse.dropWhile pyIsSpace).reverse

/-- Python `s.lstrip` on the one-character set holding U+FEFF: drops
every leading BOM character. -/
def pyLstripBOM (l : List Char) : List Char :=
  l.dropWhile (· == BOM)

/-- views.py line 70: `col.strip()` then `.lstrip` of the BOM —
whitespace is stripped first, the leading BOM run second. -/
def normalizeHeader (s : String) : String :=
  ⟨pyLstripBOM (pyStripChars s.data)⟩

/-- Modelled from the spec: the claimed normalization, read as a
postcondition — the raw token with its leading byte-order marker(s)
removed and surrounding whitespace removed (so the result carries no
leading BOM and no surrounding whitespace). -/
def specNormalizeHeader (s : String) : String :=
  ⟨pyStripChars (pyLstripBOM s.data)⟩

/-- views.py line 47. -/
def REQUIRED_COLUMNS : List String :=
  ["Equipment Name", "Type", "Flowrate", "Pressure", "Temperature"]

/-- views.py lines 76 and 81: `REQUIRED_COLUMNS.difference(df.columns)`,
then `sorted(...)` (lexicographic). -/
def missingColumns (cols : List String) : List String :=
  (REQUIRED_COLUMNS.filter (fun c => !(cols.contains c))).insertionSort (· ≤ ·)

/-- The exceptions the modelled pipeline can raise. -/
inductive PyError where
  | meanTypeError
  | reportWriteError (msg : String)
deriving DecidableEq

/-- Is this cell unparseable text? -/
def NumCell.isBad : NumCell → Bool
  | .bad _ => true
  | _ => false

/-- The numeric value of a cell, when it has one. -/
def NumCell.numVal : NumCell → Option ℚ
  | .num q => some q
  | _ => none

/-- `df[c].mean()` for a numeric CSV column: raises `TypeError` when the
column holds non-numeric text (object dtype), skips NaN cells, and is NaN
when no numeric value remains. -/
def seriesMean (cells : List NumCell) : Except PyError (Option ℚ) :=
  if cells.any NumCell.isBad then .error .meanTypeError
  else if (cells.filterMap NumCell.numVal).length = 0 then .ok none
  else .ok (some ((cells.filterMap NumCell.numVal).sum /
                  ((cells.filterMap NumCell.numVal).length : ℚ)))

/-- `df["Type"].value_counts()` followed by the view's dict comprehension:
occurrence counts of the distinct non-NaN values, sorted by count
descending.  NaN cells are dropped (pandas `value_counts` default
`dropna=True`).  The tie order among equal counts is not relied upon. -/
def value_counts (cells : List (Option String)) : List (String × Nat) :=
  ((cells.filterMap id).dedup.map
      (fun v => (v, (cells.filterMap id).count v))).insertionSort
    (fun a b => b.2 ≤ a.2)

/-- views.py lines 101-107. -/
structure StatsPayload where
  total_count : Nat
  average_flowrate : Option ℚ
  average_pressure : Option ℚ
  average_temperature : Option ℚ
  type_distribution : List (String × Nat)
deriving DecidableEq

/-- views.py lines 90-92: `float(df[c].mean()) if total_count > 0 else 0.0`
(the conditional expression calls `mean` only when the count is positive). -/
def computeAvg (total_count : Nat) (cells : List NumCell) : Except PyError (Option ℚ) :=
  if total_count > 0 then seriesMean cells else .ok (some 0)

/-- views.py lines 89-107, as one fallible computation (the three means are
evaluated in source order; each can raise). -/
def computeStats (rows : List DataRow) : Except PyError StatsPayload :=
  match computeAvg rows.length (rows.map (·.flowrate)) with
  | .error e => .error e
  | .ok avgF =>
    match computeAvg rows.length (rows.map (·.pressure)) with
    | .error e => .error e
    | .ok avgP =>
      match computeAvg rows.length (rows.map (·.temperature)) with
      | .error e => .error e
      | .ok avgT =>
        .ok ⟨rows.length, avgF, avgP, avgT, value_counts (rows.map (·.typeCell))⟩

/-- The JSON bodies the view can return.  The catch-all branch
(views.py lines 161-170) returns only a fixed message plus `str(exc)`;
it has no structured row/column locator field. -/
inductive UploadResponse where
  | success (stats : StatsPayload) (pdf_report : String)
  | missingColumnsError (missing_columns : List String) (seen_columns : List String)
  | unexpectedError (details : PyError)
deriving DecidableEq

/-- The observable kind of a response: HTTP status plus error shape. -/
inductive RespKind where
  | httpOkSuccess
  | httpBadRequestMissingColumns
  | httpBadRequestUnexpected
deriving DecidableEq

def respKind : UploadResponse → RespKind
  | .success _ _ => .httpOkSuccess
  | .missingColumnsError _ _ => .httpBadRequestMissingColumns
  | .unexpectedError _ => .httpBadRequestUnexpected

/-- The structured (row index, column name) locator carried by a response,
if any.  Matching each constructor of the code's response type: the
success body has none, the missing-columns body carries column-name lists
only, and the catch-all body carries only a message and `str(exc)` —
no constructor has a row locator. -/
def responseParseLocator : UploadResponse → Option (Nat × String)
  | .success _ _ => none
  | .missingColumnsError _ _ => none
  | .unexpectedError _ => none

/-- `datetime.now()` / `django.utils.timezone.now()`: microsecond
resolution; `strftime("%Y%m%d_%H%M%S")` drops the microseconds. -/
structure PyDatetime where
  year : Nat
  month : Nat
  day : Nat
  hour : Nat
  minute : Nat
  second : Nat
  microsecond : Nat
deriving DecidableEq

/-- Two-digit zero-padded field (`%m`, `%d`, `%H`, `%M`, `%S`). -/
def pad2 (n : Nat) : List Char := [Nat.digitChar (n / 10), Nat.digitChar (n % 10)]

/-- Four-digit zero-padded field (`%Y`). -/
def pad4 (n : Nat) : List Char :=
  [Nat.digitChar (n / 1000), Nat.digitChar (n / 100 % 10),
   Nat.digitChar (n / 10 % 10), Nat.digitChar (n % 10)]

/-- views.py line 184: `now().strftime("%Y%m%d_%H%M%S")`. -/
def strftimeYmdHMS (t : PyDatetime) : String :=
  ⟨pad4 t.year ++ pad2 t.month ++ pad2 t.day ++ ['_'] ++
   pad2 t.hour ++ pad2 t.minute ++ pad2 t.second⟩

/-- views.py line 185. -/
def reportFilename (t : PyDatetime) : String :=
  "Equipment_Summary_Report_" ++ strftimeYmdHMS t ++ ".pdf"

/-- views.py line 247: the relative path returned to the frontend
(built with a literal forward slash). -/
def report_reference (t : PyDatetime) : String :=
  "media/reports/" ++ reportFilename t

/-- The order used by `order_by("-uploaded_at")`: `a` before `b` when
`a` is at least as new. -/
def histNewerEq (a b : History) : Prop := b.uploaded_at ≤ a.uploaded_at

instance : DecidableRel histNewerEq := fun a b =>
  inferInstanceAs (Decidable (b.uploaded_at ≤ a.uploaded_at))

instance : IsTotal History histNewerEq :=
  ⟨fun a b => Nat.le_total b.uploaded_at a.uploaded_at⟩

instance : IsTrans History histNewerEq :=
  ⟨fun _ _ _ hab hbc => Nat.le_trans hbc hab⟩

/-- `History.objects.order_by("-uploaded_at")`. -/
def sortNewestFirst (h : List History) : List History :=
  h.insertionSort histNewerEq

/-- views.py line 5 comment / both usages hardcode 5. -/
def MAX_HISTORY : Nat := 5

/-- views.py lines 250-260, `_trim_history`: order newest first, delete
everything past the newest 5; the surviving rows are exactly the first 5
of the ordered view. -/
def trim_history (h : List History) : List History :=
  (sortNewestFirst h).take MAX_HISTORY

/-- views.py lines 272-276, `HistoryListView.get`:
`History.objects.order_by("-uploaded_at")[:5]`. -/
def list_recent (h : List History) : List History :=
  (sortNewestFirst h).take MAX_HISTORY

/-- views.py lines 113-123: map a CSV row to an Equipment instance. -/
def toEquipment (r : DataRow) : Equipment :=
  ⟨r.name, r.typeCell, r.flowrate, r.pressure, r.temperature⟩

/-- Floor of a rational as an integer (computable). -/
def ratFloor (q : ℚ) : ℤ := Int.fdiv q.num (q.den : ℤ)

/-- Round half to even, the rounding of Python `format(x, ".2f")`
(on the exact rational value; the binary-double representation error of
CPython floats is outside this model). -/
def roundHalfEven (q : ℚ) : ℤ :=
  let f := ratFloor q
  let r := q - (f : ℚ)
  if r < 1/2 then f
  else if 1/2 < r then f + 1
  else if f % 2 = 0 then f else f + 1

/-- Python `f"{x:.2f}"` on the float model `Option ℚ` (NaN prints "nan"). -/
def fmt2 : Option ℚ → String
  | none => "nan"
  | some q =>
    let n := roundHalfEven (q * 100)
    let sign := if n < 0 ∨ (n = 0 ∧ q < 0) then "-" else ""
    sign ++ toString (n.natAbs / 100) ++ "." ++ ⟨pad2 (n.natAbs % 100)⟩

/-- views.py lines 136-141: the f-string stored into History.summary. -/
def history_summary (total_count : Nat) (avgF avgP avgT : Option ℚ) : String :=
  "Total: " ++ toString total_count ++
  ", Avg Flowrate: " ++ fmt2 avgF ++
  ", Avg Pressure: " ++ fmt2 avgP ++
  ", Avg Temperature: " ++ fmt2 avgT

/-- EquipmentUploadView.post (views.py lines 49-170), threading the DB
state explicitly.  `reportOutcome` is the outcome of the filesystem/ReportLab
work inside `create_summary_pdf`; `t` is the generation clock reading;
`uat` is the `uploaded_at` value `auto_now_add` assigns to the new
History row.  The broad `except Exception` branch returns the generic
error body together with whatever state mutations had already been
committed (there is no transaction around the view). -/
def post (u : Upload) (reportOutcome : Except PyError Unit) (t : PyDatetime) (uat : Nat)
    (σ : DBState) : UploadResponse × DBState :=
  let cleaned := u.headers.map normalizeHeader
  let missing := missingColumns cleaned
  if missing = [] then
    match computeStats u.rows with
    | .error e => (.unexpectedError e, σ)
    | .ok stats =>
      let σ1 : DBState := { σ with equipment := σ.equipment ++ u.rows.map toEquipment }
      match reportOutcome with
      | .error e => (.unexpectedError e, σ1)
      | .ok _ =>
        let fn := reportFilename t
        let pdf_report := "media/reports/" ++ fn
        let σ2 : DBState := { σ1 with reports := σ1.reports ++ [fn] }
        let entry : History :=
          ⟨uat, u.filename,
           history_summary stats.total_count stats.average_flowrate
             stats.average_pressure stats.average_temperature,
           pdf_report⟩
        let σ3 : DBState := { σ2 with history := trim_history (σ2.history ++ [entry]) }
        (.success stats pdf_report, σ3)
  else
    (.missingColumnsError missing cleaned, σ)

/-! ## Concrete scenario data -/

/-- The empty initial database. -/
def emptyDB : DBState := ⟨[], [], []⟩

/-- A fixed clock reading used by the concrete scenarios. -/
def t0 : PyDatetime := ⟨2026, 1, 2, 3, 4, 5, 0⟩

/-- The header row of the FOSSEE sample file. -/
def sampleHeaders : List String :=
  ["Equipment Name", "Type", "Flowrate", "Pressure", "Temperature"]

/-- An upload whose single data row has an empty `Type` cell (pandas reads
it as NaN); every required column is present and every numeric cell
parses, so the pipeline succeeds. -/
def nanTypeUpload : Upload :=
  ⟨"equipment.csv", sampleHeaders,
   [⟨some "Pump-1", none, .num 10, .num 2, .num 300⟩]⟩

/-- The stats payload of a success response, if any. -/
def respStats : UploadResponse → Option StatsPayload
  | .success s _ => some s
  | _ => none

/-! ## Control-flow normal form of the view -/

/-- The branching structure of `post` with every local inlined
(definitional). -/
theorem post_eq (u : Upload) (rio : Except PyError Unit) (t : PyDatetime)
    (uat : Nat) (σ : DBState) :
    post u rio t uat σ =
      if missingColumns (u.headers.map normalizeHeader) = [] then
        match computeStats u.rows with
        | .error e => (.unexpectedError e, σ)
        | .ok stats =>
          match rio with
          | .error e =>
            (.unexpectedError e,
             ⟨σ.equipment ++ u.rows.map toEquipment, σ.history, σ.reports⟩)
          | .ok _ =>
            (.success stats ("media/reports/" ++ reportFilename t),
             ⟨σ.equipment ++ u.rows.map toEquipment,
              trim_history (σ.history ++
                [⟨uat, u.filename,
                  history_summary stats.total_count stats.average_flowrate
                    stats.average_pressure stats.average_temperature,
                  "media/reports/" ++ reportFilename t⟩]),
              σ.reports ++ [reportFilename t]⟩)
      else
        (.missingColumnsError (missingColumns (u.headers.map normalizeHeader))
          (u.headers.map normalizeHeader), σ) := rfl

/-- Inversion of a successful run of `post`: the header check passed, the
statistics computation succeeded with exactly the returned payload, the
report I/O succeeded, and the final state appended the records, the
report file and the (trimmed) ledger entry. -/
theorem post_success_inv {u : Upload} {rio : Except PyError Unit}
    {t : PyDatetime} {uat : Nat} {σ σ2 : DBState} {stats : StatsPayload}
    {ref : String}
    (h : post u rio t uat σ = (.success stats ref, σ2)) :
    missingColumns (u.headers.map normalizeHeader) = [] ∧
    computeStats u.rows = .ok stats ∧
    ref = "media/reports/" ++ reportFilename t ∧
    σ2 = ⟨σ.equipment ++ u.rows.map toEquipment,
          trim_history (σ.history ++
            [⟨uat, u.filename,
              history_summary stats.total_count stats.average_flowrate
                stats.average_pressure stats.average_temperature,
              "media/reports/" ++ reportFilename t⟩]),
          σ.reports ++ [reportFilename t]⟩ := by
  rw [post_eq] at h
  by_cases hm : missingColumns (u.headers.map normalizeHeader) = []
  · rw [if_pos hm] at h
    cases hcs : computeStats u.rows with
    | error e => simp only [hcs] at h; simp at h
    | ok s =>
      simp only [hcs] at h
      cases rio with
      | error e => simp at h
      | ok x =>
        cases x
        simp only [Prod.mk.injEq, UploadResponse.success.injEq] at h
        obtain ⟨⟨hs, href⟩, hσ⟩ := h
        subst hs
        exact ⟨hm, rfl, href.symm, hσ.symm⟩
  · rw [if_neg hm] at h
    simp at h

/-- Inversion of a successful `computeStats`. -/
theorem computeStats_ok_inv {rows : List DataRow} {stats : StatsPayload}
    (h : computeStats rows = .ok stats) :
    stats.total_count = rows.length ∧
    stats.type_distribution = value_counts (rows.map (·.typeCell)) := by
  cases h1 : computeAvg rows.length (rows.map (·.flowrate)) with
  | error e => simp only [computeStats, h1] at h; simp at h
  | ok aF =>
    cases h2 : computeAvg rows.length (rows.map (·.pressure)) with
    | error e => simp only [computeStats, h1, h2] at h; simp at h
    | ok aP =>
      cases h3 : computeAvg rows.length (rows.map (·.temperature)) with
      | error e => simp only [computeStats, h1, h2, h3] at h; simp at h
      | ok aT =>
        simp only [computeStats, h1, h2, h3] at h
        injection h with h4
        subst h4
        exact ⟨rfl, rfl⟩

/-! ## Lemmas about the category distribution -/

/-- Summing the distribution counts the non-NaN cells. -/
theorem value_counts_sum (cells : List (Option String)) :
    ((value_counts cells).map Prod.snd).sum = (cells.filterMap id).length := by
  have hperm :
      (value_counts cells).Perm
        ((cells.filterMap id).dedup.map
          (fun v => (v, (cells.filterMap id).count v))) :=
    List.perm_insertionSort _ _
  rw [(hperm.map Prod.snd).sum_eq, List.map_map]
  simpa [Function.comp_def] using
    List.sum_map_count_dedup_eq_length (cells.filterMap id)

/-- Every count in the distribution is at least 1. -/
theorem value_counts_pos (cells : List (Option String)) :
    ∀ p ∈ value_counts cells, 1 ≤ p.2 := by
  intro p hp
  rw [value_counts, List.mem_insertionSort] at hp
  obtain ⟨v, hv, rfl⟩ := List.mem_map.mp hp
  exact List.count_pos_iff.mpr (List.mem_dedup.mp hv)

/-- The distribution keys are pairwise distinct. -/
theorem value_counts_keys_nodup (cells : List (Option String)) :
    ((value_counts cells).map Prod.fst).Nodup := by
  have hperm :
      (value_counts cells).Perm
        ((cells.filterMap id).dedup.map
          (fun v => (v, (cells.filterMap id).count v))) :=
    List.perm_insertionSort _ _
  refine ((hperm.map Prod.fst).nodup_iff).mpr ?_
  rw [List.map_map]
  simpa [Function.comp_def] using List.nodup_dedup (cells.filterMap id)

/-- `filterMap id` keeps the length when no element is `none`. -/
theorem filterMap_id_length_of_isSome {α : Type} {l : List (Option α)}
    (h : ∀ x ∈ l, x.isSome = true) : (l.filterMap id).length = l.length := by
  induction l with
  | nil => rfl
  | cons a tl ih =>
    cases a with
    | none => exact absurd (h none (by simp)) (by simp)
    | some b =>
      have htl := ih (fun x hx => h x (by simp [hx]))
      simp [List.filterMap_cons, htl]

/-! ## Claim C1 -/

/-- Claim C1 is false on the code: the upload `nanTypeUpload` (all
required columns present, one data row whose `Type` cell is empty) is
accepted and processed successfully, its `record_count` is 1, yet the
category distribution is empty — `value_counts` drops the NaN cell — so
the distribution sums to 0, not to `record_count`. -/
theorem C1_counterexample :
    respKind (post nanTypeUpload (.ok ()) t0 1 emptyDB).1 = .httpOkSuccess ∧
    (respStats (post nanTypeUpload (.ok ()) t0 1 emptyDB).1).map
      StatsPayload.total_count = some 1 ∧
    (respStats (post nanTypeUpload (.ok ()) t0 1 emptyDB).1).map
      (fun s => (s.type_distribution.map Prod.snd).sum) = some 0 :=
  ⟨rfl, rfl, rfl⟩

/-- Claim C1 (amended): for every upload accepted as valid whose rows all
carry a non-empty `Type` cell, the category distribution returned in the
result sums to `record_count`.  (In general the sum equals the number of
rows with a non-empty `Type` cell.) -/
theorem C1_amended (u : Upload) (rio : Except PyError Unit) (t : PyDatetime)
    (uat : Nat) (σ σ2 : DBState) (stats : StatsPayload) (ref : String)
    (hrun : post u rio t uat σ = (.success stats ref, σ2))
    (hty : u.rows.all (fun r => r.typeCell.isSome) = true) :
    (stats.type_distribution.map Prod.snd).sum = stats.total_count := by
  obtain ⟨-, hcs, -, -⟩ := post_success_inv hrun
  obtain ⟨hcount, hdist⟩ := computeStats_ok_inv hcs
  rw [hdist, hcount, value_counts_sum]
  rw [filterMap_id_length_of_isSome (fun x hx => ?_), List.length_map]
  obtain ⟨r, hr, rfl⟩ := List.mem_map.mp hx
  exact List.all_eq_true.mp hty r hr

/-- The FOSSEE sample scenario extended by a second pump (three rows, two
categories, every cell present). -/
def sampleUpload : Upload :=
  ⟨"equipment.csv", sampleHeaders,
   [⟨some "Pump-1", some "Pump", .num 10, .num 2, .num 300⟩,
    ⟨some "Valve-1", some "Valve", .num 5, .num 1, .num 290⟩,
    ⟨some "Pump-2", some "Pump", .num 7, .num 3, .num 310⟩]⟩

/-- Witness for the amended C1 at the three-row sample upload. -/
theorem C1_amended_witness :
    sampleUpload.rows.all (fun r => r.typeCell.isSome) = true ∧
    (([("Pump", 2), ("Valve", 1)] : List (String × Nat)).map Prod.snd).sum = 3 :=
  ⟨rfl, C1_amended sampleUpload (.ok ()) t0 9 emptyDB _ _ _ rfl rfl⟩

/-! ## Claim C2 -/

/-- A `seriesMean` over a column with unparseable text raises. -/
theorem seriesMean_error {cells : List NumCell}
    (h : cells.any NumCell.isBad = true) :
    seriesMean cells = .error .meanTypeError := by
  rw [seriesMean, if_pos h]

/-- A `seriesMean` over a column with no unparseable text returns. -/
theorem seriesMean_ok {cells : List NumCell}
    (h : cells.any NumCell.isBad = false) :
    ∃ v, seriesMean cells = .ok v := by
  rw [seriesMean, if_neg (by simp [h])]
  by_cases h0 : (cells.filterMap NumCell.numVal).length = 0
  · exact ⟨none, by rw [if_pos h0]⟩
  · exact ⟨_, by rw [if_neg h0]⟩

/-- A non-numeric cell in any of the three numeric columns makes the
statistics computation raise the mean `TypeError`. -/
theorem computeStats_error_of_bad {rows : List DataRow}
    (h : (rows.map (·.flowrate)).any NumCell.isBad = true ∨
         (rows.map (·.pressure)).any NumCell.isBad = true ∨
         (rows.map (·.temperature)).any NumCell.isBad = true) :
    computeStats rows = .error .meanTypeError := by
  have hlen : 0 < rows.length := by
    rcases h with h | h | h <;>
      · obtain ⟨c, hc, -⟩ := List.any_eq_true.mp h
        obtain ⟨r, hr, -⟩ := List.mem_map.mp hc
        exact List.length_pos.mpr (List.ne_nil_of_mem hr)
  by_cases hf : (rows.map (·.flowrate)).any NumCell.isBad = true
  · simp only [computeStats, computeAvg, if_pos hlen, seriesMean_error hf]
  · obtain ⟨vF, hvF⟩ := seriesMean_ok (Bool.eq_false_iff.mpr hf)
    by_cases hp : (rows.map (·.pressure)).any NumCell.isBad = true
    · simp only [computeStats, computeAvg, if_pos hlen, hvF,
        seriesMean_error hp]
    · obtain ⟨vP, hvP⟩ := seriesMean_ok (Bool.eq_false_iff.mpr hp)
      have ht : (rows.map (·.temperature)).any NumCell.isBad = true := by
        rcases h with h | h | h
        · exact absurd h hf
        · exact absurd h hp
        · exact h
      simp only [computeStats, computeAvg, if_pos hlen, hvF, hvP,
        seriesMean_error ht]

/-- The spec's ParseError scenario: a CSV whose third data row holds
non-numeric text in the `Flowrate` column. -/
def badFlowrateUpload : Upload :=
  ⟨"equipment.csv", sampleHeaders,
   [⟨some "Pump-1", some "Pump", .num 10, .num 2, .num 300⟩,
    ⟨some "Valve-1", some "Valve", .num 5, .num 1, .num 290⟩,
    ⟨some "Mixer-1", some "Mixer", .bad "abc", .num 1, .num 280⟩]⟩

/-- Claim C2 is false as stated: on the scenario upload (non-numeric
`Flowrate` on row 3) the code fails through the broad `except Exception`
handler with the generic unexpected-error response; no `ParseError` kind
exists in the code and the response carries no (row index, column name)
locator.  The no-partial-ingestion half of the claim does hold: the state
is unchanged. -/
theorem C2_counterexample :
    post badFlowrateUpload (.ok ()) t0 2 emptyDB =
      (.unexpectedError .meanTypeError, emptyDB) ∧
    responseParseLocator (post badFlowrateUpload (.ok ()) t0 2 emptyDB).1 =
      none :=
  ⟨rfl, rfl⟩

/-- Claim C2 (amended): an upload with a non-numeric cell in one of the
three numeric columns (and all required columns present) makes the whole
pipeline fail through the generic catch-all handler — the response is the
unexpected-error body built from the raised `TypeError`, with no
ParseError kind and no row/column locator — and the database state is
unchanged, so zero records are persisted. -/
theorem C2_amended (u : Upload) (rio : Except PyError Unit) (t : PyDatetime)
    (uat : Nat) (σ : DBState)
    (hcols : missingColumns (u.headers.map normalizeHeader) = [])
    (hbad : (u.rows.map (·.flowrate)).any NumCell.isBad = true ∨
            (u.rows.map (·.pressure)).any NumCell.isBad = true ∨
            (u.rows.map (·.temperature)).any NumCell.isBad = true) :
    post u rio t uat σ = (.unexpectedError .meanTypeError, σ) ∧
    responseParseLocator (post u rio t uat σ).1 = none := by
  have hcs := computeStats_error_of_bad hbad
  constructor
  · rw [post_eq, if_pos hcols, hcs]
  · rw [post_eq, if_pos hcols, hcs]
    rfl

/-- Witness for the amended C2, with a bad `Pressure` cell this time. -/
theorem C2_amended_witness :
    missingColumns
      ((⟨"p.csv", sampleHeaders,
         [⟨some "Pump-1", some "Pump", .num 10, .bad "low", .num 300⟩]⟩ :
          Upload).headers.map normalizeHeader) = [] ∧
    ((⟨"p.csv", sampleHeaders,
       [⟨some "Pump-1", some "Pump", .num 10, .bad "low", .num 300⟩]⟩ :
        Upload).rows.map (·.pressure)).any NumCell.isBad = true ∧
    post
      (⟨"p.csv", sampleHeaders,
        [⟨some "Pump-1", some "Pump", .num 10, .bad "low", .num 300⟩]⟩ :
         Upload) (.ok ()) t0 8 emptyDB =
      (.unexpectedError .meanTypeError, emptyDB) :=
  ⟨rfl, rfl,
   (C2_amended
      (⟨"p.csv", sampleHeaders,
        [⟨some "Pump-1", some "Pump", .num 10, .bad "low", .num 300⟩]⟩ :
         Upload) (.ok ()) t0 8 emptyDB rfl (Or.inr (Or.inl rfl))).1⟩

/-! ## Claim C3 -/

/-- When every required column is present nothing is missing. -/
theorem missingColumns_eq_nil {cols : List String}
    (h : ∀ c ∈ REQUIRED_COLUMNS, c ∈ cols) : missingColumns cols = [] := by
  rw [missingColumns]
  have hf : REQUIRED_COLUMNS.filter (fun c => !(cols.contains c)) = [] :=
    List.filter_eq_nil_iff.mpr (fun a ha => by simp [h a ha])
  rw [hf]
  rfl

/-- Claim C3: a missing required column makes the view return the
missing-columns failure with the sorted list of exactly the absent
required names and the full normalized header list, leaving the state
untouched (no record, no report file, no ledger entry); and when every
required column is present that failure is impossible, so extra columns
never cause it. -/
theorem C3_theorem :
    (∀ (u : Upload) (rio : Except PyError Unit) (t : PyDatetime) (uat : Nat)
        (σ : DBState),
        missingColumns (u.headers.map normalizeHeader) ≠ [] →
        post u rio t uat σ =
          (.missingColumnsError (missingColumns (u.headers.map normalizeHeader))
             (u.headers.map normalizeHeader), σ)) ∧
    (∀ cols : List String, (missingColumns cols).Sorted (· ≤ ·)) ∧
    (∀ (cols : List String) (c : String),
        c ∈ missingColumns cols ↔ c ∈ REQUIRED_COLUMNS ∧ ¬ c ∈ cols) ∧
    (∀ (u : Upload) (rio : Except PyError Unit) (t : PyDatetime) (uat : Nat)
        (σ : DBState),
        (∀ c ∈ REQUIRED_COLUMNS, c ∈ u.headers.map normalizeHeader) →
        ∀ m s, (post u rio t uat σ).1 ≠ .missingColumnsError m s) := by
  refine ⟨?_, ?_, ?_, ?_⟩
  · intro u rio t uat σ h
    rw [post_eq, if_neg h]
  · intro cols
    exact List.sorted_insertionSort _ _
  · intro cols c
    simp [missingColumns, List.mem_insertionSort, List.mem_filter]
  · intro u rio t uat σ h m s
    rw [post_eq, if_pos (missingColumns_eq_nil h)]
    cases hcs : computeStats u.rows with
    | error e => simp
    | ok st =>
      cases rio with
      | error e => simp
      | ok x => simp

/-- Witness for C3: a header row without `Pressure` fails and changes
nothing; a header row with an extra `Comment` column cannot produce the
missing-columns failure. -/
theorem C3_witness :
    missingColumns
      ((["Equipment Name", "Type", "Flowrate", "Temperature"] :
          List String).map normalizeHeader) ≠ [] ∧
    post (⟨"x.csv", ["Equipment Name", "Type", "Flowrate", "Temperature"],
           []⟩ : Upload) (.ok ()) t0 4 emptyDB =
      (.missingColumnsError ["Pressure"]
         ["Equipment Name", "Type", "Flowrate", "Temperature"], emptyDB) ∧
    (post (⟨"y.csv", sampleHeaders ++ ["Comment"], []⟩ : Upload)
        (.ok ()) t0 4 emptyDB).1 ≠
      .missingColumnsError ["Pressure"] (sampleHeaders ++ ["Comment"]) :=
  ⟨by decide,
   C3_theorem.1 (⟨"x.csv", ["Equipment Name", "Type", "Flowrate",
      "Temperature"], []⟩ : Upload) (.ok ()) t0 4 emptyDB (by decide),
   C3_theorem.2.2.2 (⟨"y.csv", sampleHeaders ++ ["Comment"], []⟩ : Upload)
     (.ok ()) t0 4 emptyDB (by decide) ["Pressure"]
     (sampleHeaders ++ ["Comment"])⟩

/-! ## Claim C8 -/

/-- Claim C8: an upload with all required columns present and no data
rows succeeds (given working report I/O): `record_count` is 0, all three
averages are exactly 0.0 — the division is never attempted — and the
category distribution is the empty mapping. -/
theorem C8_theorem (u : Upload) (t : PyDatetime) (uat : Nat) (σ : DBState)
    (hcols : missingColumns (u.headers.map normalizeHeader) = [])
    (hrows : u.rows = []) :
    (post u (.ok ()) t uat σ).1 =
      .success ⟨0, some 0, some 0, some 0, []⟩
        ("media/reports/" ++ reportFilename t) := by
  rw [post_eq, if_pos hcols, hrows]
  rfl

/-- Witness for C8 at a concrete header-only upload. -/
theorem C8_witness :
    missingColumns (sampleHeaders.map normalizeHeader) = [] ∧
    (post (⟨"empty.csv", sampleHeaders, []⟩ : Upload) (.ok ()) t0 3
        emptyDB).1 =
      .success ⟨0, some 0, some 0, some 0, []⟩
        ("media/reports/" ++ reportFilename t0) :=
  ⟨rfl, C8_theorem (⟨"empty.csv", sampleHeaders, []⟩ : Upload) t0 3 emptyDB
     rfl rfl⟩

/-! ## Claim C9 -/

/-- Claim C9: on every successful upload every value of the category
distribution is at least 1 and its keys are pairwise distinct. -/
theorem C9_theorem (u : Upload) (rio : Except PyError Unit) (t : PyDatetime)
    (uat : Nat) (σ σ2 : DBState) (stats : StatsPayload) (ref : String)
    (hrun : post u rio t uat σ = (.success stats ref, σ2)) :
    stats.type_distribution.all (fun p => 1 ≤ p.2) = true ∧
    (stats.type_distribution.map Prod.fst).Nodup := by
  obtain ⟨-, hcs, -, -⟩ := post_success_inv hrun
  obtain ⟨-, hdist⟩ := computeStats_ok_inv hcs
  rw [hdist]
  constructor
  · exact List.all_eq_true.mpr
      (fun p hp => decide_eq_true (value_counts_pos _ p hp))
  · exact value_counts_keys_nodup _

/-- Witness for C9 at the three-row sample upload: the computed
distribution is `[("Pump", 2), ("Valve", 1)]`. -/
theorem C9_witness :
    ([("Pump", 2), ("Valve", 1)] : List (String × Nat)).all
      (fun p => 1 ≤ p.2) = true ∧
    (([("Pump", 2), ("Valve", 1)] : List (String × Nat)).map Prod.fst).Nodup :=
  C9_theorem sampleUpload (.ok ()) t0 9 emptyDB _ _ _ rfl

/-! ## Claim C4 -/

/-- Trimming leaves at most `MAX_HISTORY` entries. -/
theorem trim_history_length (h : List History) :
    (trim_history h).length ≤ MAX_HISTORY := by
  rw [trim_history, List.length_take]
  exact Nat.min_le_left _ _

/-- The trimmed ledger is ordered newest first. -/
theorem trim_history_sorted (h : List History) :
    (trim_history h).Sorted histNewerEq :=
  List.Pairwise.sublist (List.take_sublist _ _)
    (List.sorted_insertionSort _ _)

/-- Every surviving entry is at least as new as every deleted entry. -/
theorem trim_history_newest (h : List History) :
    ∀ x ∈ trim_history h, ∀ y ∈ h, y ∉ trim_history h → histNewerEq x y := by
  intro x hx y hy hyn
  have hymem : y ∈ sortNewestFirst h := (List.mem_insertionSort _).mpr hy
  have hsorted : (sortNewestFirst h).Sorted histNewerEq :=
    List.sorted_insertionSort _ _
  have hsplit :
      (sortNewestFirst h).take MAX_HISTORY ++
        (sortNewestFirst h).drop MAX_HISTORY = sortNewestFirst h :=
    List.take_append_drop _ _
  rw [← hsplit] at hymem hsorted
  rcases List.mem_append.mp hymem with hyt | hyd
  · exact absurd hyt hyn
  · exact (List.pairwise_append.mp hsorted).2.2 x hx y hyd

/-- Claim C4: after every successful upload the ledger holds at most
`MAX_HISTORY` = 5 entries ordered newest-first by `uploaded_at`, every
survivor being at least as new as every deleted entry; and `list_recent`
always returns at most 5 entries, newest first. -/
theorem C4_theorem :
    (∀ (u : Upload) (rio : Except PyError Unit) (t : PyDatetime) (uat : Nat)
        (σ σ2 : DBState) (stats : StatsPayload) (ref : String),
        post u rio t uat σ = (.success stats ref, σ2) →
        σ2.history.length ≤ MAX_HISTORY ∧
        σ2.history.Sorted histNewerEq ∧
        (∀ x ∈ σ2.history, ∀ y ∈ σ.history, y ∉ σ2.history →
          histNewerEq x y)) ∧
    (∀ h : List History,
        (list_recent h).length ≤ MAX_HISTORY ∧
        (list_recent h).Sorted histNewerEq) := by
  constructor
  · intro u rio t uat σ σ2 stats ref hrun
    obtain ⟨-, -, -, hσ⟩ := post_success_inv hrun
    subst hσ
    refine ⟨trim_history_length _, trim_history_sorted _, ?_⟩
    intro x hx y hy hyn
    exact trim_history_newest _ x hx y (List.mem_append.mpr (Or.inl hy)) hyn
  · intro h
    exact ⟨trim_history_length h, trim_history_sorted h⟩

/-- A table of five ledger entries, in scrambled insertion order. -/
def fiveDB : DBState :=
  ⟨[], [⟨12, "c.csv", "s", "p"⟩, ⟨10, "a.csv", "s", "p"⟩,
        ⟨14, "e.csv", "s", "p"⟩, ⟨11, "b.csv", "s", "p"⟩,
        ⟨13, "d.csv", "s", "p"⟩], []⟩

/-- Witness for C4: a sixth successful upload trims the table back to 5,
newest first (the oldest entry, stamp 10, is deleted), and `list_recent`
reads the table newest first. -/
theorem C4_witness :
    ((post (⟨"f.csv", sampleHeaders, []⟩ : Upload) (.ok ()) t0 20
        fiveDB).2.history.length ≤ MAX_HISTORY ∧
      (post (⟨"f.csv", sampleHeaders, []⟩ : Upload) (.ok ()) t0 20
        fiveDB).2.history.Sorted histNewerEq) ∧
    (post (⟨"f.csv", sampleHeaders, []⟩ : Upload) (.ok ()) t0 20
        fiveDB).2.history.map History.uploaded_at = [20, 14, 13, 12, 11] ∧
    (list_recent fiveDB.history).map History.uploaded_at =
      [14, 13, 12, 11, 10] :=
  ⟨⟨(C4_theorem.1 (⟨"f.csv", sampleHeaders, []⟩ : Upload) (.ok ()) t0 20
       fiveDB _ _ _ rfl).1,
    (C4_theorem.1 (⟨"f.csv", sampleHeaders, []⟩ : Upload) (.ok ()) t0 20
       fiveDB _ _ _ rfl).2.1⟩, rfl, rfl⟩

/-! ## Claim C10 -/

/-- The head of the five-newest view is the head of the full sorted
view. -/
theorem head_take_max (l : List History) :
    (l.take MAX_HISTORY).head? = l.head? := by
  cases l <;> rfl

/-- An entry strictly newer than everything else heads the sorted
view. -/
theorem sortNewestFirst_head (l : List History) (e : History)
    (hmax : ∀ y ∈ l, y.uploaded_at < e.uploaded_at) :
    (sortNewestFirst (l ++ [e])).head? = some e := by
  have hmem : e ∈ sortNewestFirst (l ++ [e]) :=
    (List.mem_insertionSort _).mpr (by simp)
  cases hh : sortNewestFirst (l ++ [e]) with
  | nil => rw [hh] at hmem; cases hmem
  | cons a as =>
    rw [List.head?_cons]
    have hsorted : (a :: as).Sorted histNewerEq := by
      rw [← hh]; exact List.sorted_insertionSort _ _
    rw [hh] at hmem
    have ha : a ∈ l ++ [e] :=
      (List.mem_insertionSort _).mp (hh ▸ List.mem_cons_self a as)
    rcases List.mem_append.mp ha with hal | hae
    · rcases List.mem_cons.mp hmem with he | he
      · exact congrArg some he.symm
      · have hdom : histNewerEq a e := List.rel_of_sorted_cons hsorted e he
        exact absurd hdom (Nat.not_le.mpr (hmax a hal))
    · have hc : a = e := by simpa using hae
      exact congrArg some hc

/-- Python renders a finite float with `".2f"` as some characters
followed by a decimal point and exactly two digits. -/
def twoDecimals (s : String) : Prop :=
  ∃ h3 a b, s.data = h3 ++ ['.', a, b] ∧ a.isDigit = true ∧ b.isDigit = true

/-- `Nat.digitChar` of a decimal digit is a digit character. -/
theorem digitChar_isDigit : ∀ k < 10, (Nat.digitChar k).isDigit = true := by
  decide

/-- The `".2f"` rendering of any finite value has exactly two decimal
places. -/
theorem fmt2_twoDecimals (q : ℚ) : twoDecimals (fmt2 (some q)) := by
  refine ⟨((if roundHalfEven (q * 100) < 0 ∨
              (roundHalfEven (q * 100) = 0 ∧ q < 0) then "-" else "") ++
           toString ((roundHalfEven (q * 100)).natAbs / 100)).data,
          Nat.digitChar ((roundHalfEven (q * 100)).natAbs % 100 / 10),
          Nat.digitChar ((roundHalfEven (q * 100)).natAbs % 100 % 10),
          ?_, ?_, ?_⟩
  · simp [fmt2, pad2, String.data_append]
  · have hm : (roundHalfEven (q * 100)).natAbs % 100 < 100 :=
      Nat.mod_lt _ (by norm_num)
    exact digitChar_isDigit _ (by omega)
  · have hm : (roundHalfEven (q * 100)).natAbs % 100 < 100 :=
      Nat.mod_lt _ (by norm_num)
    exact digitChar_isDigit _ (by omega)

/-- Claim C10: on every successful upload whose `uploaded_at` stamp is
newer than every existing ledger entry, the ledger entry recorded for
the upload (the head of the trimmed ledger) carries exactly the summary
text "Total: {record_count}, Avg Flowrate: {avg:.2f}, Avg Pressure:
{avg:.2f}, Avg Temperature: {avg:.2f}" built from that upload's
statistics; and every `".2f"` rendering of a finite value ends in a
decimal point followed by exactly two digits. -/
theorem C10_theorem (u : Upload) (rio : Except PyError Unit) (t : PyDatetime)
    (uat : Nat) (σ σ2 : DBState) (stats : StatsPayload) (ref : String)
    (hrun : post u rio t uat σ = (.success stats ref, σ2))
    (hnew : ∀ y ∈ σ.history, y.uploaded_at < uat) :
    σ2.history.head? = some
      ⟨uat, u.filename,
       "Total: " ++ toString stats.total_count ++
       ", Avg Flowrate: " ++ fmt2 stats.average_flowrate ++
       ", Avg Pressure: " ++ fmt2 stats.average_pressure ++
       ", Avg Temperature: " ++ fmt2 stats.average_temperature,
       ref⟩ ∧
    ∀ q : ℚ, twoDecimals (fmt2 (some q)) := by
  obtain ⟨-, -, href, hσ⟩ := post_success_inv hrun
  subst href hσ
  refine ⟨?_, fmt2_twoDecimals⟩
  show (trim_history _).head? = _
  rw [trim_history, head_take_max]
  exact sortNewestFirst_head σ.history _ hnew

/-- Witness for C10: the sixth upload's ledger entry carries the summary
format instantiated with its own statistics. -/
theorem C10_witness :
    (post (⟨"g.csv", sampleHeaders, []⟩ : Upload) (.ok ()) t0 20
        fiveDB).2.history.head? = some
      ⟨20, "g.csv",
       "Total: " ++ toString (0 : Nat) ++
       ", Avg Flowrate: " ++ fmt2 (some 0) ++
       ", Avg Pressure: " ++ fmt2 (some 0) ++
       ", Avg Temperature: " ++ fmt2 (some 0),
       "media/reports/" ++ reportFilename t0⟩ :=
  (C10_theorem (⟨"g.csv", sampleHeaders, []⟩ : Upload) (.ok ()) t0 20
     fiveDB _ _ _ rfl (by decide)).1


/-! ## Claim C5 -/

/-- `dropWhile` skips a block whose members all satisfy the predicate. -/
theorem dropWhile_append_of_forall {p : Char → Bool} {xs : List Char}
    (h : ∀ x ∈ xs, p x = true) (ys : List Char) :
    (xs ++ ys).dropWhile p = ys.dropWhile p := by
  induction xs with
  | nil => rfl
  | cons a l ih =>
    rw [List.cons_append, List.dropWhile_cons, if_pos (h a (by simp))]
    exact ih (fun x hx => h x (by simp [hx]))

/-- `dropWhile` stops at a head that fails the predicate. -/
theorem dropWhile_cons_of_neg {p : Char → Bool} {x : Char} (xs : List Char)
    (h : p x = false) : (x :: xs).dropWhile p = x :: xs := by
  rw [List.dropWhile_cons, if_neg (by simp [h])]

/-- `strip()` on a token of the shape whitespace* BOM* core whitespace*
removes exactly the outer whitespace (the leading BOM run survives
because the BOM is not whitespace). -/
theorem pyStripChars_decompose (w1 b w2 : List Char) (c : Char)
    (cs : List Char)
    (hw1 : ∀ x ∈ w1, pyIsSpace x = true)
    (hw2 : ∀ x ∈ w2, pyIsSpace x = true)
    (hb : ∀ x ∈ b, x = BOM)
    (hc1 : pyIsSpace c = false)
    (hlast : pyIsSpace (cs.getLastD c) = false) :
    pyStripChars (w1 ++ b ++ (c :: cs) ++ w2) = b ++ (c :: cs) := by
  have hBOMspace : pyIsSpace BOM = false := by decide
  have hw2r : ∀ x ∈ w2.reverse, pyIsSpace x = true :=
    fun x hx => hw2 x (List.mem_reverse.mp hx)
  have hfront : (w1 ++ b ++ (c :: cs) ++ w2).dropWhile pyIsSpace
      = b ++ (c :: cs) ++ w2 := by
    have h1 : w1 ++ b ++ (c :: cs) ++ w2
        = w1 ++ (b ++ ((c :: cs) ++ w2)) := by
      simp [List.append_assoc]
    rw [h1, dropWhile_append_of_forall hw1]
    cases b with
    | nil =>
      show ((c :: cs) ++ w2).dropWhile pyIsSpace = [] ++ (c :: cs) ++ w2
      rw [List.cons_append, dropWhile_cons_of_neg _ hc1]
      simp
    | cons x bt =>
      have hx := hb x (by simp)
      subst hx
      show ((BOM :: bt) ++ ((c :: cs) ++ w2)).dropWhile pyIsSpace
          = (BOM :: bt) ++ (c :: cs) ++ w2
      rw [List.cons_append, dropWhile_cons_of_neg _ hBOMspace]
      simp
  rw [pyStripChars, hfront]
  rcases List.eq_nil_or_concat cs with rfl | ⟨l2, a, rfl⟩
  · have hrev : (b ++ [c] ++ w2).reverse = w2.reverse ++ (c :: b.reverse) := by
      simp
    rw [hrev, dropWhile_append_of_forall hw2r, dropWhile_cons_of_neg _ hc1]
    simp
  · simp only [List.concat_eq_append] at hlast
    have hlasta : pyIsSpace a = false := by
      rwa [List.getLastD_concat] at hlast
    have hrev : (b ++ (c :: (l2 ++ [a])) ++ w2).reverse
        = w2.reverse ++ (a :: (l2.reverse ++ (c :: b.reverse))) := by
      simp
    simp only [List.concat_eq_append]
    rw [hrev, dropWhile_append_of_forall hw2r, dropWhile_cons_of_neg _ hlasta]
    simp

/-- Python `lstrip` of the BOM set drops exactly the leading BOM run. -/
theorem pyLstripBOM_bom_append {b : List Char} (hb : ∀ x ∈ b, x = BOM)
    {c : Char} (hc : c ≠ BOM) (cs : List Char) :
    pyLstripBOM (b ++ (c :: cs)) = c :: cs := by
  induction b with
  | nil =>
    rw [List.nil_append, pyLstripBOM, List.dropWhile_cons,
        if_neg (by simp [beq_eq_false_iff_ne.mpr hc])]
  | cons x bt ih =>
    have hx := hb x (by simp)
    subst hx
    rw [List.cons_append, pyLstripBOM, List.dropWhile_cons, if_pos (by simp)]
    exact ih (fun y hy => hb y (by simp [hy]))


/-- Claim C5 is false as stated: on the raw header token BOM, space,
`Equipment Name`, the code's normalization leaves a token that still
starts with whitespace — `strip()` runs before the BOM removal, and the
BOM shields the inner space from `strip()` — while the claimed
normalization (leading BOM removed and surrounding whitespace removed)
yields the fully stripped token. -/
theorem C5_counterexample :
    normalizeHeader "\uFEFF Equipment Name" = " Equipment Name" ∧
    specNormalizeHeader "\uFEFF Equipment Name" = "Equipment Name" ∧
    normalizeHeader "\uFEFF Equipment Name" ≠
      specNormalizeHeader "\uFEFF Equipment Name" := by
  refine ⟨rfl, rfl, ?_⟩
  decide

/-- Claim C5 (amended): the normalized header is the raw token with
surrounding whitespace stripped first, then every leading BOM removed.
For every token of the shape whitespace* BOM* core whitespace* whose
core neither starts with whitespace or a BOM nor ends with whitespace,
this equals the core, as the claim intends; whitespace standing between
a leading BOM and the core, however, survives (see the
counterexample). -/
theorem C5_amended (w1 b w2 : List Char) (c : Char) (cs : List Char)
    (hw1 : ∀ x ∈ w1, pyIsSpace x = true)
    (hw2 : ∀ x ∈ w2, pyIsSpace x = true)
    (hb : ∀ x ∈ b, x = BOM)
    (hc1 : pyIsSpace c = false) (hc2 : c ≠ BOM)
    (hlast : pyIsSpace (cs.getLastD c) = false) :
    normalizeHeader ⟨w1 ++ b ++ (c :: cs) ++ w2⟩ = ⟨c :: cs⟩ := by
  show (⟨pyLstripBOM
    (pyStripChars (w1 ++ b ++ (c :: cs) ++ w2))⟩ : String) = _
  rw [pyStripChars_decompose w1 b w2 c cs hw1 hw2 hb hc1 hlast,
      pyLstripBOM_bom_append hb hc2]

/-- Witness for the amended C5: a BOM directly followed by the name,
inside outer spaces, normalizes to the bare name. -/
theorem C5_amended_witness :
    normalizeHeader ⟨[' '] ++ [BOM] ++ ('E' :: "quipment Name".data) ++
      [' ']⟩ = ⟨'E' :: "quipment Name".data⟩ :=
  C5_amended [' '] [BOM] [' '] 'E' "quipment Name".data (by decide)
    (by decide) (by decide) (by decide) (by decide) (by decide)



/-! ## Claim C6 -/

/-- All displayed clock fields within the ranges any real clock reading
satisfies (loose two-digit bounds suffice for injectivity). -/
def validClock (t : PyDatetime) : Prop :=
  t.year < 10000 ∧ t.month < 100 ∧ t.day < 100 ∧
  t.hour < 100 ∧ t.minute < 100 ∧ t.second < 100

instance (t : PyDatetime) : Decidable (validClock t) := by
  rw [validClock]; infer_instance

/-- `Nat.digitChar` is injective on decimal digits. -/
theorem digitChar_inj : ∀ a < 10, ∀ b < 10,
    Nat.digitChar a = Nat.digitChar b → a = b := by decide

/-- Two-digit zero-padding is injective below 100. -/
theorem pad2_inj {a b : Nat} (ha : a < 100) (hb : b < 100)
    (h : pad2 a = pad2 b) : a = b := by
  simp only [pad2, List.cons.injEq, and_true] at h
  obtain ⟨h1, h2⟩ := h
  have e1 := digitChar_inj _ (by omega) _ (by omega) h1
  have e2 := digitChar_inj _ (by omega) _ (by omega) h2
  omega

/-- Four-digit zero-padding is injective below 10000. -/
theorem pad4_inj {a b : Nat} (ha : a < 10000) (hb : b < 10000)
    (h : pad4 a = pad4 b) : a = b := by
  simp only [pad4, List.cons.injEq, and_true] at h
  obtain ⟨h1, h2, h3, h4⟩ := h
  have e1 := digitChar_inj _ (by omega) _ (by omega) h1
  have e2 := digitChar_inj _ (by omega) _ (by omega) h2
  have e3 := digitChar_inj _ (by omega) _ (by omega) h3
  have e4 := digitChar_inj _ (by omega) _ (by omega) h4
  omega

/-- The timestamp rendering determines every displayed field. -/
theorem strftime_inj {ta tb : PyDatetime} (hva : validClock ta)
    (hvb : validClock tb) (h : strftimeYmdHMS ta = strftimeYmdHMS tb) :
    ta.year = tb.year ∧ ta.month = tb.month ∧ ta.day = tb.day ∧
    ta.hour = tb.hour ∧ ta.minute = tb.minute ∧ ta.second = tb.second := by
  have hd : pad4 ta.year ++ pad2 ta.month ++ pad2 ta.day ++ ['_'] ++
      pad2 ta.hour ++ pad2 ta.minute ++ pad2 ta.second =
      pad4 tb.year ++ pad2 tb.month ++ pad2 tb.day ++ ['_'] ++
      pad2 tb.hour ++ pad2 tb.minute ++ pad2 tb.second :=
    congrArg String.data h
  simp only [List.append_assoc] at hd
  obtain ⟨hy, hd⟩ := List.append_inj hd rfl
  obtain ⟨hmo, hd⟩ := List.append_inj hd rfl
  obtain ⟨hdd, hd⟩ := List.append_inj hd rfl
  obtain ⟨-, hd⟩ := List.append_inj hd rfl
  obtain ⟨hh, hd⟩ := List.append_inj hd rfl
  obtain ⟨hmi, hs⟩ := List.append_inj hd rfl
  exact ⟨pad4_inj hva.1 hvb.1 hy, pad2_inj hva.2.1 hvb.2.1 hmo,
    pad2_inj hva.2.2.1 hvb.2.2.1 hdd, pad2_inj hva.2.2.2.1 hvb.2.2.2.1 hh,
    pad2_inj hva.2.2.2.2.1 hvb.2.2.2.2.1 hmi,
    pad2_inj hva.2.2.2.2.2 hvb.2.2.2.2.2 hs⟩

/-- Beyond the hexadecimal range every value renders as an asterisk. -/
theorem digitChar_ge16 {k : Nat} (h : 16 ≤ k) : Nat.digitChar k = '*' := by
  unfold Nat.digitChar
  iterate 16 rw [if_neg (by omega)]

/-- No value renders as a backslash. -/
theorem digitChar_ne_backslash (k : Nat) : Nat.digitChar k ≠ '\\' := by
  by_cases hk : k < 16
  · have hlt : ∀ m < 16, Nat.digitChar m ≠ '\\' := by decide
    exact hlt k hk
  · rw [digitChar_ge16 (by omega)]
    decide

theorem backslash_not_mem_pad2 (n : Nat) : '\\' ∉ pad2 n := by
  intro h
  rcases List.mem_cons.mp h with h1 | h1
  · exact digitChar_ne_backslash _ h1.symm
  rcases List.mem_cons.mp h1 with h2 | h2
  · exact digitChar_ne_backslash _ h2.symm
  · cases h2

theorem backslash_not_mem_pad4 (n : Nat) : '\\' ∉ pad4 n := by
  intro h
  rcases List.mem_cons.mp h with h1 | h1
  · exact digitChar_ne_backslash _ h1.symm
  rcases List.mem_cons.mp h1 with h2 | h2
  · exact digitChar_ne_backslash _ h2.symm
  rcases List.mem_cons.mp h2 with h3 | h3
  · exact digitChar_ne_backslash _ h3.symm
  rcases List.mem_cons.mp h3 with h4 | h4
  · exact digitChar_ne_backslash _ h4.symm
  · cases h4

/-- The timestamp part of the report name never holds a backslash. -/
theorem backslash_not_mem_strftime (t : PyDatetime) :
    '\\' ∉ (strftimeYmdHMS t).data := by
  intro h
  have h0 : '\\' ∈ pad4 t.year ++ pad2 t.month ++ pad2 t.day ++
      ['_'] ++ pad2 t.hour ++ pad2 t.minute ++ pad2 t.second := h
  rcases List.mem_append.mp h0 with h1 | h1
  swap
  · exact backslash_not_mem_pad2 _ h1
  rcases List.mem_append.mp h1 with h2 | h2
  swap
  · exact backslash_not_mem_pad2 _ h2
  rcases List.mem_append.mp h2 with h3 | h3
  swap
  · exact backslash_not_mem_pad2 _ h3
  rcases List.mem_append.mp h3 with h4 | h4
  swap
  · simp at h4
  rcases List.mem_append.mp h4 with h5 | h5
  swap
  · exact backslash_not_mem_pad2 _ h5
  rcases List.mem_append.mp h5 with h6 | h6
  · exact backslash_not_mem_pad4 _ h6
  · exact backslash_not_mem_pad2 _ h6

/-- Claim C6 is false as stated: two distinct generation instants inside
the same wall-clock second (they differ only in the microseconds, which
the second-resolution timestamp format drops) produce the same report
reference — the name is not unique per generation. -/
theorem C6_counterexample :
    t0 ≠ (⟨2026, 1, 2, 3, 4, 5, 500000⟩ : PyDatetime) ∧
    report_reference t0 =
      report_reference ⟨2026, 1, 2, 3, 4, 5, 500000⟩ :=
  ⟨by decide, rfl⟩

/-- Claim C6 (amended): report references collide exactly on timestamps
rendering to the same second; whenever any displayed field of the two
generation timestamps differs, the references are distinct.  Every
reference starts with the fixed equipment-summary path and contains no
backslash, only the canonical forward-slash separator. -/
theorem C6_amended (ta tb : PyDatetime) (hva : validClock ta)
    (hvb : validClock tb)
    (hne : ta.year ≠ tb.year ∨ ta.month ≠ tb.month ∨ ta.day ≠ tb.day ∨
           ta.hour ≠ tb.hour ∨ ta.minute ≠ tb.minute ∨
           ta.second ≠ tb.second) :
    report_reference ta ≠ report_reference tb ∧
    (∃ rest, (report_reference ta).data =
      "media/reports/Equipment_Summary_Report_".data ++ rest) ∧
    '\\' ∉ (report_reference ta).data := by
  refine ⟨?_, ?_, ?_⟩
  · intro h
    have hd := congrArg String.data h
    simp only [report_reference, reportFilename, String.data_append] at hd
    have hd2 := List.append_cancel_left hd
    obtain ⟨hd3, -⟩ := List.append_inj hd2 rfl
    have hd4 := List.append_cancel_left hd3
    have hstr : strftimeYmdHMS ta = strftimeYmdHMS tb := String.ext hd4
    obtain ⟨e1, e2, e3, e4, e5, e6⟩ := strftime_inj hva hvb hstr
    rcases hne with hne | hne | hne | hne | hne | hne
    · exact hne e1
    · exact hne e2
    · exact hne e3
    · exact hne e4
    · exact hne e5
    · exact hne e6
  · exact ⟨(strftimeYmdHMS ta).data ++ ".pdf".data, rfl⟩
  · intro h
    have h0 : '\\' ∈ ("media/reports/" : String).data ++
        (reportFilename ta).data := by
      rw [← String.data_append]; exact h
    rcases List.mem_append.mp h0 with h1 | h1
    · exact absurd h1 (by decide)
    · have h2 : '\\' ∈
          (("Equipment_Summary_Report_" : String) ++
            strftimeYmdHMS ta).data ++ (".pdf" : String).data := by
        rw [← String.data_append]; exact h1
      rcases List.mem_append.mp h2 with h3 | h3
      · have h4 : '\\' ∈ ("Equipment_Summary_Report_" : String).data ++
            (strftimeYmdHMS ta).data := by
          rw [← String.data_append]; exact h3
        rcases List.mem_append.mp h4 with h5 | h5
        · exact absurd h5 (by decide)
        · exact backslash_not_mem_strftime ta h5
      · exact absurd h3 (by decide)

/-- Witness for the amended C6: one second apart, the references
differ. -/
theorem C6_amended_witness :
    validClock t0 ∧
    report_reference t0 ≠ report_reference ⟨2026, 1, 2, 3, 4, 6, 0⟩ ∧
    '\\' ∉ (report_reference t0).data :=
  ⟨by decide,
   (C6_amended t0 ⟨2026, 1, 2, 3, 4, 6, 0⟩ (by decide) (by decide)
      (by decide)).1,
   (C6_amended t0 ⟨2026, 1, 2, 3, 4, 6, 0⟩ (by decide) (by decide)
      (by decide)).2.2⟩


/-! ## Claim C7 -/

/-- Claim C7 is false in its distinguishability part: a report-generation
failure after successful persistence produces a response of exactly the
same kind (the generic HTTP 400 unexpected-error body) as a
validation-time parse crash.  The two outcomes cannot be told apart by
kind even though the first persisted records (the equipment table is no
longer empty) and the second persisted nothing (the state is
untouched). -/
theorem C7_counterexample :
    respKind (post sampleUpload (.error (.reportWriteError "disk full")) t0 7
        emptyDB).1 =
      respKind (post badFlowrateUpload (.ok ()) t0 7 emptyDB).1 ∧
    (post sampleUpload (.error (.reportWriteError "disk full")) t0 7
        emptyDB).2.equipment ≠ [] ∧
    (post badFlowrateUpload (.ok ()) t0 7 emptyDB).2 = emptyDB :=
  ⟨rfl, by decide, rfl⟩

/-- Claim C7 (amended): when validation passes and the statistics are
computed but the report generation raises, the already-persisted
equipment records are retained (appended to the table, not rolled back),
no ledger entry and no report file are written; the response, however,
is the same generic unexpected-error body used for any other crash, not
a distinguishable partial-success kind. -/
theorem C7_amended (u : Upload) (e : PyError) (t : PyDatetime) (uat : Nat)
    (σ : DBState) (stats : StatsPayload)
    (hcols : missingColumns (u.headers.map normalizeHeader) = [])
    (hstats : computeStats u.rows = .ok stats) :
    post u (.error e) t uat σ =
      (.unexpectedError e,
       ⟨σ.equipment ++ u.rows.map toEquipment, σ.history, σ.reports⟩) := by
  rw [post_eq, if_pos hcols, hstats]

/-- Witness for the amended C7 at a one-row upload. -/
theorem C7_amended_witness :
    missingColumns (sampleHeaders.map normalizeHeader) = [] ∧
    post (⟨"w.csv", sampleHeaders,
        [⟨some "P", some "Pump", .num 1, .num 2, .num 3⟩]⟩ : Upload)
      (.error (.reportWriteError "io")) t0 6 emptyDB =
      (.unexpectedError (.reportWriteError "io"),
       ⟨[⟨some "P", some "Pump", .num 1, .num 2, .num 3⟩], [], []⟩) :=
  ⟨rfl,
   C7_amended (⟨"w.csv", sampleHeaders,
       [⟨some "P", some "Pump", .num 1, .num 2, .num 3⟩]⟩ : Upload)
     (.reportWriteError "io") t0 6 emptyDB _ rfl rfl⟩

end ChemViz
